import Mathlib

/-!
Verification of the joke-rating service in `src/index.js`.

The service stores jokes and 1–5 star ratings in two relational tables and
serves five HTTP operations: create joke, random joke, top jokes, list all
jokes, and rate a joke.  We embed the handlers as pure Lean functions over an
explicit store state, modelling PostgreSQL aggregates (`AVG`, `COUNT`) with
exact rationals, JavaScript's `parseInt` with an explicit parser, and the
schema constraints of the `ratings` table (INTEGER column, CHECK bounds,
foreign key) inside the insert operation.
-/

namespace Ranas

/-! ### JavaScript `parseInt`

`parseInt(str)` (radix argument omitted): skip leading whitespace, read an
optional sign, detect a `0x`/`0X` prefix (hexadecimal), then take the longest
prefix of digits of the detected radix; NaN (here `none`) when that prefix is
empty. -/

/-- Whitespace characters skipped by `parseInt` and removed by `trim`. -/
def isJsSpace (c : Char) : Bool :=
  c = ' ' ∨ c = '\t' ∨ c = '\n' ∨ c = '\r' ∨ c = '\x0b' ∨ c = '\x0c'

/-- JavaScript `String.prototype.trim`: strip whitespace from both ends. -/
def jsTrim (s : String) : String :=
  String.mk (((s.data.dropWhile isJsSpace).reverse.dropWhile isJsSpace).reverse)

/-- Value of a hexadecimal digit. -/
def hexDigVal (c : Char) : Nat :=
  if c.isDigit then c.toNat - 48
  else if 'a' ≤ c ∧ c ≤ 'f' then c.toNat - 87
  else c.toNat - 55

/-- Is `c` a hexadecimal digit? -/
def isHexDig (c : Char) : Bool :=
  c.isDigit ∨ ('a' ≤ c ∧ c ≤ 'f') ∨ ('A' ≤ c ∧ c ≤ 'F')

/-- Numeric value of a decimal digit string, most significant digit first. -/
def natOfDecDigits (l : List Char) : Nat :=
  l.foldl (fun a c => 10 * a + (c.toNat - 48)) 0

/-- Numeric value of a hexadecimal digit string, most significant first. -/
def natOfHexDigits (l : List Char) : Nat :=
  l.foldl (fun a c => 16 * a + hexDigVal c) 0

/-- The unsigned part of `parseInt`: radix detection and longest digit run. -/
def parseUnsigned (l : List Char) : Option Nat :=
  match l with
  | '0' :: c :: t =>
    if c = 'x' ∨ c = 'X' then
      let hs := t.takeWhile isHexDig
      if hs.isEmpty then none else some (natOfHexDigits hs)
    else
      some (natOfDecDigits (('0' :: c :: t).takeWhile Char.isDigit))
  | l =>
    let ds := l.takeWhile Char.isDigit
    if ds.isEmpty then none else some (natOfDecDigits ds)

/-- JavaScript `parseInt(s)`; `none` models NaN. -/
def parseIntJs (s : String) : Option Int :=
  match s.data.dropWhile isJsSpace with
  | '-' :: t => (parseUnsigned t).map (fun n => -(n : Int))
  | '+' :: t => (parseUnsigned t).map (fun n => (n : Int))
  | t => (parseUnsigned t).map (fun n => (n : Int))

/-! ### Store state

Tables `jokes(id, text, author, created_at)` and
`ratings(id, joke_id, stars, created_at)`.  `SERIAL` ids are carried in
`nextJokeId` / `nextRatingId`; `created_at TIMESTAMP DEFAULT NOW()` is a
logical clock.  A stored rating's `stars` is an integer because the column
has type INTEGER; the HTTP layer hands the store a raw JSON number, so the
insert operation takes a rational and casts it. -/

structure Joke where
  id : Int
  text : String
  author : String
  created_at : Nat
deriving Repr, DecidableEq

structure Rating where
  id : Int
  joke_id : Int
  stars : ℤ
  created_at : Nat
deriving Repr, DecidableEq

structure DB where
  jokes : List Joke
  ratings : List Rating
  nextJokeId : Int
  nextRatingId : Int
  clock : Nat
deriving Repr, DecidableEq

/-- The empty store right after table creation. -/
def DB.empty : DB := ⟨[], [], 1, 1, 0⟩

/-! ### Derived aggregates

Every read view computes
`COALESCE(AVG(r.stars), 0) AS avg_rating, COUNT(r.id) AS rating_count`
per joke from a `LEFT JOIN ratings r ON j.id = r.joke_id` grouped by joke. -/

/-- Stars of the ratings belonging to joke `jid`. -/
def ratingsFor (db : DB) (jid : Int) : List ℤ :=
  (db.ratings.filter (fun r => r.joke_id == jid)).map Rating.stars

/-- The `COUNT(r.id)` aggregate for joke `jid`. -/
def rating_count (db : DB) (jid : Int) : Nat :=
  (ratingsFor db jid).length

/-- The `COALESCE(AVG(r.stars), 0)` aggregate for joke `jid`. -/
def avg_rating (db : DB) (jid : Int) : ℚ :=
  if ratingsFor db jid = [] then 0
  else Rat.divInt (ratingsFor db jid).sum ((ratingsFor db jid).length : Int)

/-- One row of the aggregate select list `j.*, avg_rating, rating_count`. -/
structure JokeAgg where
  joke : Joke
  avg_rating : ℚ
  rating_count : Nat
deriving Repr, DecidableEq

/-- The aggregate row the queries produce for joke `j`. -/
def jokeAgg (db : DB) (j : Joke) : JokeAgg :=
  ⟨j, avg_rating db j.id, rating_count db j.id⟩

/-- Errors surfaced by the handlers: 400, 404, and an underlying store
failure (surfaced as a 500). -/
inductive ApiError where
  | validation : String → ApiError
  | notFound : String → ApiError
  | store : ApiError
deriving Repr, DecidableEq

/-! ### Write handlers

Each write handler returns its response together with the resulting store
state; an error response leaves the state it is paired with unchanged. -/

/-- Effective author of `POST /api/jokes`:
`author && author.trim().length > 0 ? author.trim() : "Anonymous"`. -/
def authorOrAnon (author : Option String) : String :=
  match author with
  | some a => if 0 < (jsTrim a).length then jsTrim a else "Anonymous"
  | none => "Anonymous"

/-- Handler of `POST /api/jokes`: reject absent/blank text, then
`INSERT INTO jokes (text, author) VALUES ($1, $2) RETURNING *`. -/
def createJoke (db : DB) (text author : Option String) :
    Except ApiError Joke × DB :=
  match text with
  | none => (.error (.validation "Joke text is required"), db)
  | some t =>
    if (jsTrim t).length = 0 then
      (.error (.validation "Joke text is required"), db)
    else
      let j : Joke := ⟨db.nextJokeId, jsTrim t, authorOrAnon author, db.clock⟩
      (.ok j,
        { db with
            jokes := db.jokes ++ [j]
            nextJokeId := db.nextJokeId + 1
            clock := db.clock + 1 })

/-- The write `INSERT INTO ratings (joke_id, stars) VALUES ($1, $2)` under the schema
constraints: `joke_id INTEGER REFERENCES jokes(id)`, `stars INTEGER CHECK
(stars >= 1 AND stars <= 5)`.  A non-integral parameter fails the cast to
INTEGER, out-of-range stars fail the CHECK, and a dangling `joke_id` fails
the foreign key; any of these is a store error. -/
def insertRating (db : DB) (jid : Int) (s : ℚ) : Except ApiError DB :=
  if db.jokes.any (fun j => j.id == jid) ∧ s.den = 1 ∧ 1 ≤ s ∧ s ≤ 5 then
    .ok { db with
            ratings := db.ratings ++ [⟨db.nextRatingId, jid, s.num, db.clock⟩]
            nextRatingId := db.nextRatingId + 1
            clock := db.clock + 1 }
  else
    .error .store

/-- Body of `POST /api/jokes/:id/rate` after the id segment has been parsed:
reject falsy/out-of-range stars, `SELECT id FROM jokes WHERE id = $1` for the
existence check, insert the rating, then re-read the joke's aggregate row.
A NaN joke id (`none`) makes the SELECT parameter fail to cast, a store
error. -/
def rateJokeParsed (db : DB) (jokeId : Option Int) (stars : Option ℚ) :
    Except ApiError JokeAgg × DB :=
  match stars with
  | none => (.error (.validation "Stars must be between 1 and 5"), db)
  | some s =>
    if decide (s = 0) || decide (s < 1) || decide (5 < s) then
      (.error (.validation "Stars must be between 1 and 5"), db)
    else
      match jokeId with
      | none => (.error .store, db)
      | some jid =>
        if (db.jokes.filter (fun j => j.id == jid)).isEmpty then
          (.error (.notFound "Joke not found"), db)
        else
          match insertRating db jid s with
          | .error e => (.error e, db)
          | .ok db2 =>
            match (db2.jokes.filter (fun j => j.id == jid)).head? with
            | none => (.error .store, db2)
            | some j => (.ok (jokeAgg db2 j), db2)

/-- Handler of `POST /api/jokes/:id/rate`: the path segment goes through
`parseInt`. -/
def rateJoke (db : DB) (idSeg : String) (stars : Option ℚ) :
    Except ApiError JokeAgg × DB :=
  rateJokeParsed db (parseIntJs idSeg) stars

/-! ### Read handlers -/

/-- Ranking relation of `ORDER BY avg_rating DESC, rating_count DESC`:
`a` may precede `b` iff `a` has a larger average, or an equal average and at
least as many ratings. -/
def topOrder (a b : JokeAgg) : Prop :=
  b.avg_rating < a.avg_rating ∨
    (a.avg_rating = b.avg_rating ∧ b.rating_count ≤ a.rating_count)

instance : DecidableRel topOrder := fun a b => by
  unfold topOrder; infer_instance

instance : IsTotal JokeAgg topOrder where
  total a b := by
    unfold topOrder
    rcases lt_trichotomy a.avg_rating b.avg_rating with h | h | h
    · exact Or.inr (Or.inl h)
    · rcases le_total b.rating_count a.rating_count with hc | hc
      · exact Or.inl (Or.inr ⟨h, hc⟩)
      · exact Or.inr (Or.inr ⟨h.symm, hc⟩)
    · exact Or.inl (Or.inl h)

instance : IsTrans JokeAgg topOrder where
  trans a b c hab hbc := by
    unfold topOrder at hab hbc ⊢
    rcases hab with h1 | ⟨e1, c1⟩ <;> rcases hbc with h2 | ⟨e2, c2⟩
    · exact Or.inl (h2.trans h1)
    · exact Or.inl (e2 ▸ h1)
    · exact Or.inl (e1 ▸ h2)
    · exact Or.inr ⟨e1.trans e2, c2.trans c1⟩

/-- Effective limit of `GET /api/jokes/top`: `Math.min(parseInt(limit) || 10, 50)`.
`parseInt` of an absent value or non-numeric text is NaN, and NaN and 0 are
falsy, so both fall back to 10. -/
def clampLimit (q : Option String) : Int :=
  min
    (match q.bind parseIntJs with
      | none => 10
      | some n => if n = 0 then 10 else n)
    50

/-- Handler of `GET /api/jokes/top`: aggregate rows with `HAVING COUNT(r.id) > 0`,
ordered by `avg_rating DESC, rating_count DESC`, `LIMIT $1`.  PostgreSQL
rejects a negative LIMIT, which surfaces as a store error. -/
def topJokes (db : DB) (q : Option String) : Except ApiError (List JokeAgg) :=
  if clampLimit q < 0 then .error .store
  else
    .ok ((List.insertionSort topOrder
          ((db.jokes.map (jokeAgg db)).filter
            (fun a => decide (0 < a.rating_count)))).take (clampLimit q).toNat)

/-- Ordering of `GET /api/jokes`: `ORDER BY j.created_at DESC`. -/
def newerFirst (a b : JokeAgg) : Prop :=
  b.joke.created_at ≤ a.joke.created_at

instance : DecidableRel newerFirst := fun a b => by
  unfold newerFirst; infer_instance

/-- Handler of `GET /api/jokes`: every joke's aggregate row, newest first. -/
def listJokes (db : DB) : List JokeAgg :=
  List.insertionSort newerFirst (db.jokes.map (jokeAgg db))

/-- Handler of `GET /api/jokes/random`: `ORDER BY RANDOM() LIMIT 1` modelled by an
arbitrary pick index; 404 when no row comes back. -/
def randomJoke (db : DB) (pick : Nat) : Except ApiError JokeAgg :=
  match (db.jokes.map (jokeAgg db))[pick % db.jokes.length]? with
  | none => .error (.notFound "No jokes found. Be the first to add one!")
  | some a => .ok a

/-! ### Response payload shapes

The JSON fields of each response body.  `INSERT ... RETURNING *` yields the
columns of `jokes`; every other joke payload comes from the aggregate select
list `j.*, avg_rating, rating_count`. -/

inductive Field where
  | id | text | author | created_at | avg_rating | rating_count
deriving Repr, DecidableEq

/-- Columns of the `jokes` table. -/
def jokesTableColumns : List Field :=
  [.id, .text, .author, .created_at]

/-- Select list of the aggregate queries: `j.*` plus the two aggregates. -/
def aggSelectColumns : List Field :=
  jokesTableColumns ++ [.avg_rating, .rating_count]

/-- Fields of the 201 body of `POST /api/jokes` (`RETURNING *` on `jokes`). -/
def createJokeResponseFields : List Field := jokesTableColumns

/-- Fields of each row of `GET /api/jokes/top`. -/
def topJokesRowFields : List Field := aggSelectColumns

/-- Fields of each row of `GET /api/jokes`. -/
def listJokesRowFields : List Field := aggSelectColumns

/-- Fields of the body of `GET /api/jokes/random`. -/
def randomJokeResponseFields : List Field := aggSelectColumns

/-- Fields of the 200 body of `POST /api/jokes/:id/rate`. -/
def rateJokeResponseFields : List Field := aggSelectColumns

deriving instance DecidableEq for Except

/-! ### Concrete stores used to instantiate the theorems -/

/-- One joke (id 1) with two ratings, 4 and 2 stars. -/
def dbSample : DB :=
  ⟨[⟨1, "why", "Anonymous", 0⟩], [⟨1, 1, 4, 1⟩, ⟨2, 1, 2, 2⟩], 2, 3, 3⟩

/-- Three jokes: id 1 rated 4 and 2, id 2 rated 5, id 3 unrated. -/
def dbTop : DB :=
  ⟨[⟨1, "a", "Anonymous", 0⟩, ⟨2, "b", "Ann", 1⟩, ⟨3, "c", "Bob", 2⟩],
   [⟨1, 1, 4, 3⟩, ⟨2, 1, 2, 4⟩, ⟨3, 2, 5, 5⟩], 4, 4, 6⟩

/-- A single joke whose id is 16. -/
def dbHex : DB :=
  ⟨[⟨16, "t", "Anonymous", 0⟩], [], 17, 1, 1⟩

/-- Is the response a 400 validation error? -/
def isValidationErr {α : Type} (r : Except ApiError α) : Bool :=
  match r with
  | .error (.validation _) => true
  | _ => false

/-- The claim's reading of the id segment: the value of its leading run of
decimal digits, `none` when there is no leading digit. -/
def leadingDigitsVal (s : String) : Option Nat :=
  if (s.data.takeWhile Char.isDigit).isEmpty then none
  else some (natOfDecDigits (s.data.takeWhile Char.isDigit))

/-! ### C6: blank text is rejected without mutating the store -/

/-- C6: submitting a joke whose text is absent, empty, or only whitespace
after trimming fails with the validation error and leaves the store
unchanged, so no joke row is created. -/
theorem createJoke_blank_text (db : DB) (t a : Option String)
    (h : t = none ∨ ∃ s, t = some s ∧ (jsTrim s).length = 0) :
    (createJoke db t a).1 =
      Except.error (ApiError.validation "Joke text is required") ∧
    (createJoke db t a).2 = db := by
  rcases h with rfl | ⟨s, rfl, hs⟩
  · exact ⟨rfl, rfl⟩
  · simp [createJoke, hs]

theorem createJoke_blank_text_witness :
    (createJoke DB.empty (some "   ") none).1 =
      Except.error (ApiError.validation "Joke text is required") ∧
    (createJoke DB.empty (some "   ") none).2 = DB.empty :=
  createJoke_blank_text DB.empty (some "   ") none
    (Or.inr ⟨"   ", rfl, by decide⟩)

/-! ### C7: author defaults to "Anonymous" -/

/-- C7: a successfully created joke's author is the literal `"Anonymous"`
when the author field is absent or trims to the empty string, and the
trimmed author string otherwise. -/
theorem createJoke_author_default (db : DB) (t a : Option String) (j : Joke)
    (h : (createJoke db t a).1 = Except.ok j) :
    ((a = none ∨ ∃ s, a = some s ∧ (jsTrim s).length = 0) →
      j.author = "Anonymous") ∧
    (∀ s, a = some s → 0 < (jsTrim s).length → j.author = jsTrim s) := by
  have hj : j.author = authorOrAnon a := by
    match t with
    | none => simp [createJoke] at h
    | some t0 =>
      by_cases ht : (jsTrim t0).length = 0
      · simp [createJoke, ht] at h
      · simp [createJoke, ht] at h
        rw [← h]
  constructor
  · rintro (rfl | ⟨s, rfl, hs⟩)
    · simpa [authorOrAnon] using hj
    · rw [hj]; simp [authorOrAnon, hs]
  · intro s hs hlen
    subst hs
    rw [hj]; simp [authorOrAnon, hlen]

theorem createJoke_author_default_witness :
    (Joke.mk 1 "hi" "Ann" 0).author = jsTrim "  Ann " ∧
    (Joke.mk 2 "ho" "Anonymous" 1).author = "Anonymous" :=
  ⟨(createJoke_author_default DB.empty (some "hi") (some "  Ann ")
      (Joke.mk 1 "hi" "Ann" 0) (by decide)).2 "  Ann " rfl (by decide),
   (createJoke_author_default (createJoke DB.empty (some "hi") none).2
      (some "ho") (some " ") (Joke.mk 2 "ho" "Anonymous" 1) (by decide)).1
      (Or.inr ⟨" ", rfl, by decide⟩)⟩

/-! ### C5: rating a missing joke fails before the write -/

/-- C5: submitting a rating whose id segment parses to an id that no stored
joke carries fails with the not-found error, and the store — checked before
the insert — is left unchanged, so no rating row is created. -/
theorem rateJoke_missing_item (db : DB) (idSeg : String) (s : ℚ) (jid : Int)
    (hid : parseIntJs idSeg = some jid)
    (hs : ¬(s = 0 ∨ s < 1 ∨ 5 < s))
    (hmiss : ∀ j ∈ db.jokes, j.id ≠ jid) :
    (rateJoke db idSeg (some s)).1 =
      Except.error (ApiError.notFound "Joke not found") ∧
    (rateJoke db idSeg (some s)).2 = db := by
  have hfilter : db.jokes.filter (fun j => j.id == jid) = [] :=
    List.filter_eq_nil_iff.mpr (fun j hj => by simp [hmiss j hj])
  have hs0 : decide (s = 0) = false := decide_eq_false (fun h => hs (Or.inl h))
  have hs1 : decide (s < 1) = false :=
    decide_eq_false (fun h => hs (Or.inr (Or.inl h)))
  have hs5 : decide (5 < s) = false :=
    decide_eq_false (fun h => hs (Or.inr (Or.inr h)))
  simp [rateJoke, rateJokeParsed, hid, hs0, hs1, hs5, hfilter]

theorem rateJoke_missing_item_witness :
    (rateJoke dbSample "99" (some 3)).1 =
      Except.error (ApiError.notFound "Joke not found") ∧
    (rateJoke dbSample "99" (some 3)).2 = dbSample :=
  rateJoke_missing_item dbSample "99" 3 99 (by decide) (by decide) (by decide)

/-! ### C3: stars validation (corrected)

The handler guard is `!stars || stars < 1 || stars > 5`, a numeric-range
check: a non-integral number inside `[1,5]` passes it, so the insert is
attempted and only the INTEGER column of `ratings` rejects it — a store
error, not a validation error. -/

/-- C3 counterexample: stars `9/2` is not an integer, yet the handler does
not return a validation error for it — the attempted insert fails in the
store instead. -/
theorem rateJoke_noninteger_stars_cex :
    (mkRat 9 2).den ≠ 1 ∧ 1 ≤ mkRat 9 2 ∧ mkRat 9 2 ≤ 5 ∧
    isValidationErr (rateJoke dbSample "1" (some (mkRat 9 2))).1 = false ∧
    (rateJoke dbSample "1" (some (mkRat 9 2))).1 = Except.error ApiError.store := by
  exact ⟨by decide, by decide, by decide, by decide, by decide⟩

/-- C3 amended: a stars value that is absent, zero, below 1 or above 5 is
rejected with the validation error before any store write (the store is
unchanged); a non-integral stars value, however, passes the handler's
validation — the write is attempted and fails in the store (INTEGER cast),
so no rating row is created either way, but without a ValidationError. -/
theorem rateJoke_stars_amended (db : DB) (idSeg : String) (s : ℚ) :
    ((s = 0 ∨ s < 1 ∨ 5 < s) →
      (rateJoke db idSeg (some s)).1 =
        Except.error (ApiError.validation "Stars must be between 1 and 5") ∧
      (rateJoke db idSeg (some s)).2 = db) ∧
    ((rateJoke db idSeg none).1 =
        Except.error (ApiError.validation "Stars must be between 1 and 5") ∧
      (rateJoke db idSeg none).2 = db) ∧
    (s.den ≠ 1 →
      isValidationErr (rateJoke db idSeg (some s)).1 = false →
      (∃ e, e ≠ ApiError.validation "Stars must be between 1 and 5" ∧
          (rateJoke db idSeg (some s)).1 = Except.error e) ∧
      (rateJoke db idSeg (some s)).2 = db) := by
  refine ⟨?_, ⟨rfl, rfl⟩, ?_⟩
  · intro h
    have hb : (decide (s = 0) || decide (s < 1) || decide (5 < s)) = true := by
      rcases h with h | h | h <;> simp [h]
    constructor <;> · simp [rateJoke, rateJokeParsed, hb]
  · intro hden hnv
    have key : ∃ e, rateJoke db idSeg (some s) = (Except.error e, db) := by
      unfold rateJoke rateJokeParsed
      dsimp only
      by_cases hb : (decide (s = 0) || decide (s < 1) || decide (5 < s)) = true
      · rw [if_pos hb]; exact ⟨_, rfl⟩
      · rw [if_neg hb]
        cases hp : parseIntJs idSeg with
        | none => exact ⟨_, rfl⟩
        | some jid =>
          dsimp only
          by_cases hf : (db.jokes.filter (fun j => j.id == jid)).isEmpty
          · rw [if_pos hf]; exact ⟨_, rfl⟩
          · rw [if_neg hf]
            have hins : insertRating db jid s = Except.error ApiError.store := by
              unfold insertRating
              rw [if_neg]
              rintro ⟨-, hden1, -⟩
              exact hden hden1
            rw [hins]
            exact ⟨_, rfl⟩
    obtain ⟨e, he⟩ := key
    refine ⟨⟨e, ?_, by rw [he]⟩, by rw [he]⟩
    intro hcontra
    rw [he, hcontra] at hnv
    simp [isValidationErr] at hnv

theorem rateJoke_stars_amended_witness :
    (rateJoke dbSample "1" (some 6)).1 =
      Except.error (ApiError.validation "Stars must be between 1 and 5") ∧
    (rateJoke dbSample "1" (some (mkRat 9 2))).2 = dbSample :=
  ⟨((rateJoke_stars_amended dbSample "1" 6).1
      (Or.inr (Or.inr (by decide)))).1,
   (((rateJoke_stars_amended dbSample "1" (mkRat 9 2)).2.2
      (by decide) (by decide))).2⟩

/-! ### C2: limit clamping (corrected)

The handler computes `Math.min(parseInt(req.query.limit) || 10, 50)`.  A
negative parsed value is truthy in JavaScript, so it is **not** replaced by
10 and `Math.min` does not raise it to 1: `limit=-5` yields an effective
limit of -5 (which the store then rejects), contradicting the claimed clamp
to `[1,50]`. -/

/-- C2 counterexample: for `limit=-5` the effective limit is -5 — neither
defaulted to 10 nor inside `[1,50]` — and the request fails in the store
instead of returning a list. -/
theorem clampLimit_negative_cex :
    clampLimit (some "-5") = -5 ∧ clampLimit (some "-5") ≠ 10 ∧
    ¬(1 ≤ clampLimit (some "-5") ∧ clampLimit (some "-5") ≤ 50) ∧
    topJokes dbSample (some "-5") = Except.error ApiError.store := by
  exact ⟨by decide, by decide, by decide, by decide⟩

/-- C2 amended: the effective limit is `min (parseInt(limit) || 10) 50`: an
unparsable or zero value defaults to 10, a value above 50 is reduced to 50,
a value already in `[1,50]` is used as is, and any successful response holds
at most that many rows; a negative value, however, is kept negative (no
clamp to `[1,50]`) and makes the query fail. -/
theorem clampLimit_amended (q : Option String) :
    (q.bind parseIntJs = none → clampLimit q = 10) ∧
    (q.bind parseIntJs = some 0 → clampLimit q = 10) ∧
    (∀ n : Int, q.bind parseIntJs = some n → 50 < n → clampLimit q = 50) ∧
    (∀ n : Int, q.bind parseIntJs = some n → 1 ≤ n → n ≤ 50 →
      clampLimit q = n) ∧
    (∀ n : Int, q.bind parseIntJs = some n → n < 0 →
      clampLimit q = n ∧ topJokes dbSample q = Except.error ApiError.store) ∧
    (∀ db l, topJokes db q = Except.ok l →
      l.length ≤ (clampLimit q).toNat) := by
  refine ⟨?_, ?_, ?_, ?_, ?_, ?_⟩
  · intro h; unfold clampLimit; rw [h]; decide
  · intro h; unfold clampLimit; rw [h]; decide
  · intro n h hn
    unfold clampLimit
    rw [h]
    dsimp only
    rw [if_neg (by omega)]
    exact min_eq_right (by omega)
  · intro n h h1 h50
    unfold clampLimit
    rw [h]
    dsimp only
    rw [if_neg (by omega)]
    exact min_eq_left h50
  · intro n h hn
    have hc : clampLimit q = n := by
      unfold clampLimit
      rw [h]
      dsimp only
      rw [if_neg (by omega)]
      exact min_eq_left (by omega)
    refine ⟨hc, ?_⟩
    unfold topJokes
    rw [if_pos (by omega)]
  · intro db l h
    unfold topJokes at h
    by_cases hneg : clampLimit q < 0
    · rw [if_pos hneg] at h; cases h
    · rw [if_neg hneg] at h
      injection h with h
      subst h
      rw [List.length_take]
      exact min_le_left _ _

theorem clampLimit_amended_witness :
    clampLimit (some "100") = 50 ∧ clampLimit (some "abc") = 10 ∧
    clampLimit (some "0") = 10 ∧ clampLimit (some "37") = 37 ∧
    clampLimit (some "-5") = -5 ∧
    [jokeAgg dbTop (Joke.mk 2 "b" "Ann" 1)].length ≤
      (clampLimit (some "1")).toNat :=
  ⟨(clampLimit_amended (some "100")).2.2.1 100 (by decide) (by decide),
   (clampLimit_amended (some "abc")).1 (by decide),
   (clampLimit_amended (some "0")).2.1 (by decide),
   (clampLimit_amended (some "37")).2.2.2.1 37 (by decide) (by decide)
     (by decide),
   ((clampLimit_amended (some "-5")).2.2.2.2.1 (-5) (by decide)
     (by decide)).1,
   (clampLimit_amended (some "1")).2.2.2.2.2 dbTop
     [jokeAgg dbTop (Joke.mk 2 "b" "Ann" 1)] (by decide)⟩

/-! ### C1: top jokes are rated and ranked -/

/-- C1: every row a successful Top Items response returns has at least one
rating (`rating_count > 0` — an unrated joke never appears, even last), and
the rows are pairwise ordered by `avg_rating` descending with
`rating_count` descending breaking ties: whenever row `a` precedes row `b`,
either `a`'s average is strictly larger, or the averages are equal and `a`
has at least as many ratings. -/
theorem topJokes_ranking (db : DB) (q : Option String) (l : List JokeAgg)
    (h : topJokes db q = Except.ok l) :
    (∀ a ∈ l, 0 < a.rating_count) ∧
    List.Pairwise (fun a b => b.avg_rating < a.avg_rating ∨
      (a.avg_rating = b.avg_rating ∧ b.rating_count ≤ a.rating_count)) l := by
  unfold topJokes at h
  by_cases hneg : clampLimit q < 0
  · rw [if_pos hneg] at h; cases h
  · rw [if_neg hneg] at h
    injection h with h
    subst h
    constructor
    · intro a ha
      have ha1 := List.mem_of_mem_take ha
      have ha2 := (List.mem_insertionSort topOrder).mp ha1
      have ha3 := (List.mem_filter.mp ha2).2
      exact of_decide_eq_true ha3
    · have hs : List.Sorted topOrder (List.insertionSort topOrder
          ((db.jokes.map (jokeAgg db)).filter
            (fun a => decide (0 < a.rating_count)))) :=
        List.sorted_insertionSort topOrder _
      have ht := hs.sublist
        (List.take_sublist (clampLimit q).toNat
          (List.insertionSort topOrder
            ((db.jokes.map (jokeAgg db)).filter
              (fun a => decide (0 < a.rating_count)))))
      exact ht.imp (fun hab => hab)

theorem topJokes_ranking_witness :
    (∀ a ∈ [jokeAgg dbTop (Joke.mk 2 "b" "Ann" 1),
            jokeAgg dbTop (Joke.mk 1 "a" "Anonymous" 0)],
      0 < a.rating_count) ∧
    List.Pairwise (fun a b => b.avg_rating < a.avg_rating ∨
      (a.avg_rating = b.avg_rating ∧ b.rating_count ≤ a.rating_count))
      [jokeAgg dbTop (Joke.mk 2 "b" "Ann" 1),
       jokeAgg dbTop (Joke.mk 1 "a" "Anonymous" 0)] :=
  topJokes_ranking dbTop none
    [jokeAgg dbTop (Joke.mk 2 "b" "Ann" 1),
     jokeAgg dbTop (Joke.mk 1 "a" "Anonymous" 0)] (by decide)

/-! ### C4: aggregate correctness and bounds -/

/-- C4: the aggregate row computed for a joke — the row shape every read
view returns — has `rating_count` equal to the number of the joke's stored
ratings, `avg_rating = 0` when there are none and the exact arithmetic mean
of its stars otherwise, and `avg_rating` always lies in `[0,5]` (given the
schema's CHECK bound on stored stars). -/
theorem aggregate_spec (db : DB) (j : Joke)
    (hstars : ∀ r ∈ db.ratings, 1 ≤ r.stars ∧ r.stars ≤ 5) :
    (jokeAgg db j).rating_count = (ratingsFor db j.id).length ∧
    (ratingsFor db j.id = [] → (jokeAgg db j).avg_rating = 0) ∧
    (ratingsFor db j.id ≠ [] →
      (jokeAgg db j).avg_rating =
        ((ratingsFor db j.id).sum : ℚ) /
          ((jokeAgg db j).rating_count : ℚ)) ∧
    0 ≤ (jokeAgg db j).avg_rating ∧ (jokeAgg db j).avg_rating ≤ 5 := by
  have hmem : ∀ x ∈ ratingsFor db j.id, (1:ℤ) ≤ x ∧ x ≤ 5 := by
    intro x hx
    obtain ⟨r, hr, rfl⟩ := List.mem_map.mp hx
    exact hstars r (List.mem_filter.mp hr).1
  by_cases hnil : ratingsFor db j.id = []
  · have h0 : (jokeAgg db j).avg_rating = 0 := by
      show avg_rating db j.id = 0
      unfold avg_rating
      rw [if_pos hnil]
    refine ⟨rfl, fun _ => h0, fun hne => absurd hnil hne, ?_, ?_⟩
    · rw [h0]
    · rw [h0]; norm_num
  · have hlenZ : 0 < (ratingsFor db j.id).length := List.length_pos.mpr hnil
    have hlen : 0 < ((ratingsFor db j.id).length : ℚ) := by exact_mod_cast hlenZ
    have havg : (jokeAgg db j).avg_rating =
        ((ratingsFor db j.id).sum : ℚ) / ((ratingsFor db j.id).length : ℚ) := by
      show avg_rating db j.id = _
      unfold avg_rating
      rw [if_neg hnil, Rat.divInt_eq_div]
      push_cast
      ring
    have hsum_le : (ratingsFor db j.id).sum ≤
        ((ratingsFor db j.id).length : ℤ) * 5 := by
      have h := List.sum_le_card_nsmul (ratingsFor db j.id) 5
        (fun x hx => (hmem x hx).2)
      simpa [nsmul_eq_mul] using h
    have hle_sum : ((ratingsFor db j.id).length : ℤ) * 1 ≤
        (ratingsFor db j.id).sum := by
      have h := List.card_nsmul_le_sum (ratingsFor db j.id) 1
        (fun x hx => (hmem x hx).1)
      simpa [nsmul_eq_mul] using h
    have hsumQ : (0:ℚ) ≤ ((ratingsFor db j.id).sum : ℚ) := by
      have h0 : (0:ℤ) ≤ (ratingsFor db j.id).sum := by
        calc (0:ℤ) ≤ ((ratingsFor db j.id).length : ℤ) * 1 := by positivity
          _ ≤ _ := hle_sum
      exact_mod_cast h0
    refine ⟨rfl, fun he => absurd he hnil, fun _ => havg, ?_, ?_⟩
    · rw [havg]
      exact div_nonneg hsumQ hlen.le
    · rw [havg, div_le_iff₀ hlen]
      calc ((ratingsFor db j.id).sum : ℚ) ≤
          ((ratingsFor db j.id).length : ℚ) * 5 := by exact_mod_cast hsum_le
        _ = 5 * ((ratingsFor db j.id).length : ℚ) := by ring

theorem aggregate_spec_witness :
    (jokeAgg dbSample (Joke.mk 1 "why" "Anonymous" 0)).avg_rating =
      ((ratingsFor dbSample (Joke.mk 1 "why" "Anonymous" 0).id).sum : ℚ) /
        ((jokeAgg dbSample (Joke.mk 1 "why" "Anonymous" 0)).rating_count : ℚ) ∧
    0 ≤ (jokeAgg dbSample (Joke.mk 1 "why" "Anonymous" 0)).avg_rating ∧
    (jokeAgg dbSample (Joke.mk 1 "why" "Anonymous" 0)).avg_rating ≤ 5 :=
  ⟨(aggregate_spec dbSample (Joke.mk 1 "why" "Anonymous" 0)
      (by decide)).2.2.1 (by decide),
   (aggregate_spec dbSample (Joke.mk 1 "why" "Anonymous" 0)
      (by decide)).2.2.2.1,
   (aggregate_spec dbSample (Joke.mk 1 "why" "Anonymous" 0)
      (by decide)).2.2.2.2⟩

/-! ### C9: random joke -/

/-- C9: the random-joke view returns the not-found error exactly when no
joke is stored; otherwise it returns exactly one (joke, aggregate) pair, an
aggregate row of one of the stored jokes, whichever row the random ordering
put first. -/
theorem randomJoke_spec (db : DB) (pick : Nat) :
    (db.jokes = [] →
      randomJoke db pick =
        Except.error (ApiError.notFound
          "No jokes found. Be the first to add one!")) ∧
    (db.jokes ≠ [] →
      ∃ j ∈ db.jokes, randomJoke db pick = Except.ok (jokeAgg db j)) := by
  constructor
  · intro h
    unfold randomJoke
    rw [h]
    rfl
  · intro h
    have hlen : 0 < db.jokes.length := List.length_pos.mpr h
    have hmod : pick % db.jokes.length < db.jokes.length := Nat.mod_lt _ hlen
    refine ⟨db.jokes[pick % db.jokes.length], List.getElem_mem hmod, ?_⟩
    unfold randomJoke
    rw [List.getElem?_map, List.getElem?_eq_getElem hmod]
    rfl

theorem randomJoke_spec_witness :
    randomJoke DB.empty 3 =
      Except.error (ApiError.notFound
        "No jokes found. Be the first to add one!") ∧
    ∃ j ∈ dbSample.jokes, randomJoke dbSample 7 = Except.ok (jokeAgg dbSample j) :=
  ⟨(randomJoke_spec DB.empty 3).1 rfl,
   (randomJoke_spec dbSample 7).2 (by decide)⟩

/-! ### C8: payload fields (corrected)

The 201 body of `POST /api/jokes` is the row of `INSERT ... RETURNING *`,
which carries only the columns of the `jokes` table — it has no
`avg_rating` or `rating_count` field at all. -/

/-- C8 counterexample: the Submit Item 201 payload does not include the
`avg_rating` and `rating_count` fields. -/
theorem createJoke_fields_cex :
    Field.avg_rating ∉ createJokeResponseFields ∧
    Field.rating_count ∉ createJokeResponseFields := by
  exact ⟨by decide, by decide⟩

/-- C8 amended: every aggregate payload (top, list, random, rate) includes
all six fields id, text, author, created_at, avg_rating, rating_count; the
201 body of Submit Item includes only the four joke columns id, text,
author, created_at (callers cannot read aggregate fields off it). -/
theorem payload_fields_amended :
    createJokeResponseFields =
      [Field.id, Field.text, Field.author, Field.created_at] ∧
    (∀ f : Field, f ∈ topJokesRowFields) ∧
    (∀ f : Field, f ∈ listJokesRowFields) ∧
    (∀ f : Field, f ∈ randomJokeResponseFields) ∧
    (∀ f : Field, f ∈ rateJokeResponseFields) := by
  refine ⟨rfl, ?_, ?_, ?_, ?_⟩ <;> intro f <;> cases f <;> decide

/-! ### C10: lenient id parsing (corrected)

`parseInt(req.params.id)` does use only the leading digit run for ordinary
segments such as `12abc`, but a segment beginning `0x`/`0X` is read as a
hexadecimal number, not as the leading decimal digit prefix `0`. -/

/-- C10 counterexample: the segment `0x10` begins with the decimal digit
`0`, but `parseInt` yields 16 (hex), not the leading-digit-prefix value 0;
with a joke of id 16 stored, rating `0x10` behaves like rating `16` and not
like rating item 0. -/
theorem parseIntJs_hex_cex :
    leadingDigitsVal "0x10" = some 0 ∧
    parseIntJs "0x10" = some 16 ∧
    rateJoke dbHex "0x10" (some 3) = rateJoke dbHex "16" (some 3) ∧
    (rateJoke dbHex "0x10" (some 3)).1 ≠
      (rateJokeParsed dbHex (some 0) (some 3)).1 := by
  exact ⟨by decide, by decide, by decide, by decide⟩

/-- C10 amended: a path segment beginning with a decimal digit is accepted,
and — except for segments of the form `0x…`/`0X…`, which are parsed as
hexadecimal — only the value of its leading run of decimal digits is used
as the item id: the rate handler behaves exactly as if that parsed id had
been supplied. -/
theorem rateJoke_leading_digits (d : Char) (t : List Char) (s : String)
    (hs : s.data = d :: t)
    (hd : d.isDigit = true)
    (hhex : d = '0' → ∀ c ∈ t.head?, c ≠ 'x' ∧ c ≠ 'X') :
    parseIntJs s =
      some ((natOfDecDigits (s.data.takeWhile Char.isDigit) : Nat) : Int) ∧
    ∀ db stars, rateJoke db s stars =
      rateJokeParsed db
        (some ((natOfDecDigits (s.data.takeWhile Char.isDigit) : Nat) : Int))
        stars := by
  have hds : isJsSpace d = false := by
    have hn : ¬(d = ' ' ∨ d = '\t' ∨ d = '\n' ∨ d = '\r' ∨
        d = '\x0b' ∨ d = '\x0c') := by
      rintro (rfl | rfl | rfl | rfl | rfl | rfl) <;> exact absurd hd (by decide)
    unfold isJsSpace
    exact decide_eq_false hn
  have hpu : parseUnsigned (d :: t) =
      some (natOfDecDigits ((d :: t).takeWhile Char.isDigit)) := by
    unfold parseUnsigned
    split
    · next c t2 heq =>
      injection heq with h1 h2
      subst h1
      subst h2
      rw [if_neg]
      intro hc
      have := hhex rfl c rfl
      rcases hc with hc | hc
      · exact this.1 hc
      · exact this.2 hc
    · next =>
      rw [List.takeWhile_cons, if_pos hd]
      simp
  have hparse : parseIntJs s =
      some ((natOfDecDigits (s.data.takeWhile Char.isDigit) : Nat) : Int) := by
    unfold parseIntJs
    rw [hs, List.dropWhile_cons, if_neg (by simp [hds])]
    have htake : (d :: t).takeWhile Char.isDigit =
        s.data.takeWhile Char.isDigit := by rw [hs]
    split
    · next t1 heq =>
      injection heq with h1 _
      subst h1
      exact absurd hd (by decide)
    · next t1 heq =>
      injection heq with h1 _
      subst h1
      exact absurd hd (by decide)
    · next t1 h1 h2 =>
      rw [hpu, htake]
      rfl
  exact ⟨hparse, fun db stars => by unfold rateJoke; rw [hparse]⟩

theorem rateJoke_leading_digits_witness :
    parseIntJs "12abc" =
      some ((natOfDecDigits ("12abc".data.takeWhile Char.isDigit) : Nat) : Int) ∧
    rateJoke dbSample "12abc" (some 3) =
      rateJokeParsed dbSample
        (some ((natOfDecDigits ("12abc".data.takeWhile Char.isDigit) : Nat) : Int))
        (some 3) :=
  ⟨(rateJoke_leading_digits '1' "2abc".data "12abc" rfl (by decide)
      (fun h => absurd h (by decide))).1,
   (rateJoke_leading_digits '1' "2abc".data "12abc" rfl (by decide)
      (fun h => absurd h (by decide))).2 dbSample (some 3)⟩

end Ranas
